import Mathlib

/-!
# Verification of the vindex header-theme core

Shallow embedding of the scroll-position-driven header theme switcher:
* `src/unnamed/part_000` — the legacy entry point (`initHeaderThemeLogic` with
  `calculateInitialTheme`, the baseline application and the deferred
  re-baseline), embedded in namespace `Part000`;
* `src/src/scripts/headerTheme.js` — the stripped entry point, embedded in
  namespace `HeaderThemeJs`;
* `src/src/scripts/scrollAnimations.js` — only the ScrollTrigger bookkeeping of
  `initSectionEntrance` is relevant (its triggers carry no id).

The GSAP ScrollTrigger service and the DOM are external collaborators; they are
modelled explicitly below (`Page`, `St`, `scrollTo`, `createBinding`, ...).
All geometry is in absolute document coordinates: a `Rect` stores the top and
bottom offsets of an element, and `getBoundingClientRect().top` corresponds to
`rect.top - scrollY`.
-/

/-- The two-valued header theme (`"light"` / `"dark"` in the scripts). -/
inductive Theme where
  | light
  | dark
deriving DecidableEq, Repr

/-- Vertical extent of a section, in absolute document coordinates. -/
structure Rect where
  top : Int
  bottom : Int
deriving DecidableEq, Repr

/-- The static document, as seen through the DOM query layer:
`query sel` models `document.querySelector(sel)` (`none` = not found),
returning the element's absolute vertical extent.  `childCount sec child`
models `section.querySelectorAll(child).length` (used only by the animations
module).  `viewportH` is the viewport height (used by percent-based
ScrollTrigger boundaries). -/
structure Page where
  query : String → Option Rect
  viewportH : Int
  childCount : String → String → Nat

/-- A ScrollTrigger `start` boundary expression.
`topPx n` is `"top {n}px"` (the trigger starts when the element top reaches
`n` pixels below the viewport top, i.e. at scroll offset `top - n`);
`topViewportRatio num den` is a percentage form such as `"top 80%"`. -/
inductive StartSpec where
  | topPx (offset : Int)
  | topViewportRatio (num den : Int)
deriving DecidableEq, Repr

/-- A ScrollTrigger `end` boundary expression.  `defaultEnd` is GSAP's default
(`"bottom top"`: scroll offset = element bottom); `bottomPx n` is
`"bottom {n}px"` (scroll offset = element bottom - `n`). -/
inductive EndSpec where
  | defaultEnd
  | bottomPx (offset : Int)
deriving DecidableEq, Repr

/-- One ScrollTrigger as created by `ScrollTrigger.create` (its `vars`).
Every callback in the source is of the form `() => setTheme(c)` for a constant
`c`, so each directional callback slot is modelled as an optional `Theme`.
Triggers created by the animations module carry no id (`id = none`) and no
theme callbacks. -/
structure TriggerBinding where
  id : Option String
  trigger : String
  start : StartSpec
  endS : EndSpec
  refreshPriority : Int
  onEnter : Option Theme
  onLeave : Option Theme
  onEnterBack : Option Theme
  onLeaveBack : Option Theme
deriving DecidableEq, Repr

/-- The mutable world state: current scroll offset, the `data-theme`
attributes of `#main-header` and `#mega-menu` (`none` = attribute not set),
and the list of live ScrollTriggers (in creation order, as `getAll`). -/
@[ext]
structure St where
  scrollY : Int
  headerTheme : Option Theme
  megaTheme : Option Theme
  triggers : List TriggerBinding
deriving DecidableEq, Repr

/-- `setTheme` from both scripts: writes `data-theme` on the header and, when
the mega menu element exists, on the mega menu. -/
def setTheme (p : Page) (t : Theme) (st : St) : St :=
  { st with
    headerTheme := some t
    megaTheme := if (p.query "#mega-menu").isSome then some t else st.megaTheme }

/-- Scroll offset of a trigger's start boundary. -/
def startPos (p : Page) (r : Rect) : StartSpec → Int
  | .topPx offset => r.top - offset
  | .topViewportRatio num den => r.top - p.viewportH * num / den

/-- Scroll offset of a trigger's end boundary. -/
def endPos (r : Rect) : EndSpec → Int
  | .defaultEnd => r.bottom
  | .bottomPx offset => r.bottom - offset

/-- Models `id?.startsWith("theme-")` on an optional trigger id: the optional
chaining makes the check `false` (not an error) for id-less triggers. -/
def isThemeId (id? : Option String) : Bool :=
  match id? with
  | none => false
  | some s => decide (s.toList.take 6 = "theme-".toList)

/-- The teardown loop of both entry points: kill every trigger whose id starts
with the `theme-` namespace; all other triggers survive. -/
def killThemeTriggers (st : St) : St :=
  { st with triggers := st.triggers.filter (fun b => !(isThemeId b.id)) }

/-- Runs one optional callback slot (`none` = slot absent = no-op). -/
def applyRule (p : Page) (rule : Option Theme) (st : St) : St :=
  match rule with
  | none => st
  | some t => setTheme p t st

/-- Applies a sequence of `setTheme` writes in order. -/
def applyThemeList (p : Page) (l : List Theme) (st : St) : St :=
  l.foldl (fun st t => setTheme p t st) st

/-- The theme writes fired synchronously by `ScrollTrigger.create` when the
current scroll offset is already past the trigger's boundaries (the behaviour
the legacy script's comment guards against: "even if ScrollTrigger.create
fires onEnter").  A trigger whose section is absent never fires. -/
def createFired (p : Page) (b : TriggerBinding) (y : Int) : List Theme :=
  match p.query b.trigger with
  | none => []
  | some r =>
    (if startPos p r b.start ≤ y then b.onEnter.toList else []) ++
    (if endPos r b.endS ≤ y then b.onLeave.toList else [])

/-- `ScrollTrigger.create`: appends the trigger to the live list and fires the
synchronous creation-time callbacks. -/
def createBinding (p : Page) (b : TriggerBinding) (st : St) : St :=
  applyThemeList p (createFired p b st.scrollY) { st with triggers := st.triggers ++ [b] }

/-- Creates a whole list of triggers in order. -/
def createAll (p : Page) (bs : List TriggerBinding) (st : St) : St :=
  bs.foldl (fun acc b => createBinding p b acc) st

/-- Fires the directional callbacks of one trigger for a scroll move from
`oldY` to `newY`: crossing the start boundary forward fires `onEnter`, the end
boundary forward `onLeave`; crossing back over the end fires `onEnterBack`,
back over the start `onLeaveBack`.  A trigger whose section is absent never
fires. -/
def fireOne (p : Page) (b : TriggerBinding) (oldY newY : Int) (st : St) : St :=
  match p.query b.trigger with
  | none => st
  | some r =>
    let s := startPos p r b.start
    let e := endPos r b.endS
    if oldY < newY then
      let st1 := if oldY < s ∧ s ≤ newY then applyRule p b.onEnter st else st
      if oldY < e ∧ e ≤ newY then applyRule p b.onLeave st1 else st1
    else
      let st1 := if newY < e ∧ e ≤ oldY then applyRule p b.onEnterBack st else st
      if newY < s ∧ s ≤ oldY then applyRule p b.onLeaveBack st1 else st1

/-- A scroll-position change notification: every live trigger reacts to the
move (in creation order), then the scroll offset is updated. -/
def scrollTo (p : Page) (newY : Int) (st : St) : St :=
  let fired := st.triggers.foldl (fun acc b => fireOne p b st.scrollY newY acc) st
  { fired with scrollY := newY }

/-- A sequence of scroll moves. -/
def runScrolls (p : Page) (moves : List Int) (st : St) : St :=
  moves.foldl (fun acc y => scrollTo p y acc) st

/-! ## `calculateInitialTheme` (src/unnamed/part_000, lines 46-80) -/

/-- The candidate content sections of `calculateInitialTheme`. -/
def contentSections : List String :=
  [".cabinet-preview", ".section-contact", ".section-presentation",
   ".section-domaines", ".section-articles", ".section-content",
   ".section-philosophy"]

/-- `document.querySelector(".hero") || document.querySelector(".page-hero")`. -/
def hasHero (p : Page) : Bool :=
  (p.query ".hero").isSome || (p.query ".page-hero").isSome

/-- `rect.top + window.scrollY` where `rect` comes from
`getBoundingClientRect()` (so `rect.top` = absolute top - scrollY). -/
def absoluteTop (r : Rect) (scrollY : Int) : Int :=
  (r.top - scrollY) + scrollY

/-- One step of the `firstContentTop` minimisation loop: an absent section is
ignored, a present one replaces the accumulator when strictly smaller
(`none` plays the role of the initial `Infinity`). -/
def minTopStep (p : Page) (scrollY : Int) (acc : Option Int) (sel : String) : Option Int :=
  match p.query sel with
  | none => acc
  | some r =>
    let t := absoluteTop r scrollY
    match acc with
    | none => some t
    | some m => if t < m then some t else some m

/-- `firstContentTop`: minimum absolute top over the present candidate content
sections; `none` = `Infinity` (no candidate present). -/
def firstContentTop (p : Page) (scrollY : Int) : Option Int :=
  contentSections.foldl (minTopStep p scrollY) none

/-- The comparison `scrollPosition < firstContentTop - 100` (true when
`firstContentTop` is `Infinity`). -/
def scrollBeforeContent (p : Page) (scrollY : Int) : Bool :=
  match firstContentTop p scrollY with
  | none => true
  | some t => decide (scrollY < t - 100)

/-- `calculateInitialTheme` (src/unnamed/part_000, lines 46-80): dark while a
hero-type section exists and the scroll offset has not reached the first
content section minus the 100px header offset; light otherwise. -/
def calculateInitialTheme (p : Page) (scrollY : Int) : Theme :=
  if hasHero p && scrollBeforeContent p scrollY then Theme.dark else Theme.light

/-- The absolute tops of the present candidate content sections, in list
order (used to state that `firstContentTop` is their minimum). -/
def presentContentTops (p : Page) (scrollY : Int) : List Int :=
  contentSections.filterMap (fun sel => (p.query sel).map (fun r => absoluteTop r scrollY))

/-! ## The trigger tables (shared between both scripts where identical) -/

/-- Homepage: `theme-cabinet` (src/unnamed/part_000 lines 104-111,
src/src/scripts/headerTheme.js lines 61-68). -/
def themeCabinet : TriggerBinding :=
  { id := some "theme-cabinet", trigger := ".cabinet-preview",
    start := .topPx 100, endS := .defaultEnd, refreshPriority := -1,
    onEnter := some .light, onLeave := none, onEnterBack := none,
    onLeaveBack := some .dark }

/-- Homepage: `theme-audience`. -/
def themeAudience : TriggerBinding :=
  { id := some "theme-audience", trigger := ".target-audience",
    start := .topPx 100, endS := .defaultEnd, refreshPriority := -1,
    onEnter := some .dark, onLeave := none, onEnterBack := none,
    onLeaveBack := some .light }

/-- Homepage: `theme-cta` (the final CTA is a light island between two dark
regions, with both an explicit start and end boundary). -/
def themeCta : TriggerBinding :=
  { id := some "theme-cta", trigger := ".final-cta",
    start := .topPx 100, endS := .bottomPx 100, refreshPriority := -1,
    onEnter := some .light, onLeave := some .dark, onEnterBack := some .light,
    onLeaveBack := some .dark }

/-- Contact page: `theme-contact-section`. -/
def themeContactSection : TriggerBinding :=
  { id := some "theme-contact-section", trigger := ".section-contact",
    start := .topPx 100, endS := .defaultEnd, refreshPriority := -1,
    onEnter := some .light, onLeave := none, onEnterBack := none,
    onLeaveBack := some .dark }

/-- Contact page: `theme-faq-section` (no `onLeaveBack` slot). -/
def themeFaqSection : TriggerBinding :=
  { id := some "theme-faq-section", trigger := ".section-faq",
    start := .topPx 100, endS := .bottomPx 100, refreshPriority := -1,
    onEnter := some .light, onLeave := some .dark, onEnterBack := some .light,
    onLeaveBack := none }

/-- Sub-pages: the ordered list of possible first-content-section selectors. -/
def subPageLightSections : List String :=
  [".section-presentation", ".section-domaines", ".section-articles",
   ".section-content", ".section-philosophy"]

/-- Sub-pages: `theme-subpage-light-${index}` for one present selector. -/
def subPageLightBinding (index : Nat) (sel : String) : TriggerBinding :=
  { id := some ("theme-subpage-light-" ++ toString index), trigger := sel,
    start := .topPx 100, endS := .defaultEnd, refreshPriority := -1,
    onEnter := some .light, onLeave := none, onEnterBack := none,
    onLeaveBack := some .dark }

/-- Sub-pages: the `forEach((selector, index) => ...)` loop — a binding per
present selector, indexed by position in the full list. -/
def subPageLights (p : Page) : List TriggerBinding :=
  (subPageLightSections.enum).filterMap (fun pr =>
    if (p.query pr.2).isSome then some (subPageLightBinding pr.1 pr.2) else none)

/-- Legacy only: `theme-subpage-cta` on `.final-cta` (leave-back stays light;
guarded by both `.footer-wrapper` and `.final-cta` presence). -/
def themeSubpageCta : TriggerBinding :=
  { id := some "theme-subpage-cta", trigger := ".final-cta",
    start := .topPx 100, endS := .bottomPx 100, refreshPriority := -1,
    onEnter := some .light, onLeave := some .dark, onEnterBack := some .light,
    onLeaveBack := some .light }

/-- headerTheme.js only: `theme-subpage-footer` on `.footer-wrapper`
(guarded by `.footer-wrapper` presence alone, no end boundary). -/
def themeSubpageFooter : TriggerBinding :=
  { id := some "theme-subpage-footer", trigger := ".footer-wrapper",
    start := .topPx 100, endS := .defaultEnd, refreshPriority := -1,
    onEnter := some .dark, onLeave := none, onEnterBack := none,
    onLeaveBack := some .light }

/-! ## src/unnamed/part_000 (the legacy entry point) -/

namespace Part000

/-- The triggers created by the legacy `initThemeTriggers`, in creation order:
five unconditional creates, the guarded sub-page light loop, and the
`.footer-wrapper` / `.final-cta` guarded CTA binding. -/
def planBindings (p : Page) : List TriggerBinding :=
  [themeCabinet, themeAudience, themeCta, themeContactSection, themeFaqSection]
  ++ subPageLights p
  ++ (if (p.query ".footer-wrapper").isSome then
        (if (p.query ".final-cta").isSome then [themeSubpageCta] else [])
      else [])

/-- Legacy `initThemeTriggers` (src/unnamed/part_000 lines 84-220): kill the
`theme-` triggers, refresh (geometry is always read live from `Page` in this
model, so the refresh is the identity), apply the `calculateInitialTheme`
baseline, create the plan's triggers, and re-apply the baseline in the
`requestAnimationFrame` callback. -/
def initThemeTriggers (p : Page) (st : St) : St :=
  let st1 := killThemeTriggers st
  let st2 := st1
  let st3 := setTheme p (calculateInitialTheme p st2.scrollY) st2
  let st4 := createAll p (planBindings p) st3
  setTheme p (calculateInitialTheme p st4.scrollY) st4

/-- Legacy `initHeaderThemeLogic`: a silent no-op when `#main-header` is
absent; otherwise the full (eventually executed, after the load + 300ms
sequence) effect of `initThemeTriggers`. -/
def initHeaderThemeLogic (p : Page) (st : St) : St :=
  if (p.query "#main-header").isSome then initThemeTriggers p st else st

end Part000

/-! ## src/src/scripts/headerTheme.js (the stripped entry point) -/

namespace HeaderThemeJs

/-- The triggers created by headerTheme.js's `initThemeTriggers`: identical to
the legacy plan except for the footer tail, which binds `.footer-wrapper`
itself. -/
def planBindings (p : Page) : List TriggerBinding :=
  [themeCabinet, themeAudience, themeCta, themeContactSection, themeFaqSection]
  ++ subPageLights p
  ++ (if (p.query ".footer-wrapper").isSome then [themeSubpageFooter] else [])

/-- headerTheme.js `initThemeTriggers` (lines 46-163): kill, refresh and
create — no baseline application and no deferred re-baseline. -/
def initThemeTriggers (p : Page) (st : St) : St :=
  createAll p (planBindings p) (killThemeTriggers st)

/-- headerTheme.js `initHeaderThemeLogic`: same guard and lifecycle as the
legacy variant. -/
def initHeaderThemeLogic (p : Page) (st : St) : St :=
  if (p.query "#main-header").isSome then initThemeTriggers p st else st

end HeaderThemeJs

/-! ## src/src/scripts/scrollAnimations.js -/

/-- The ScrollTrigger bookkeeping of `initSectionEntrance` (lines 234-261):
no-op when the section is absent or has no matching children, otherwise one
trigger with *no id* and no theme callbacks (its tween parameters — duration,
stagger, ease, toggleActions — are pure animation configuration with no effect
on trigger bookkeeping and are not modelled). -/
def initSectionEntrance (p : Page) (sectionSelector childSelector : String)
    (start : StartSpec) (st : St) : St :=
  match p.query sectionSelector with
  | none => st
  | some _ =>
    if p.childCount sectionSelector childSelector = 0 then st
    else
      { st with
        triggers := st.triggers ++
          [{ id := none, trigger := sectionSelector, start := start,
             endS := .defaultEnd, refreshPriority := 0, onEnter := none,
             onLeave := none, onEnterBack := none, onLeaveBack := none }] }

/-! ## Concrete archetype documents (synthetic geometry for the testable
scenarios; header at the top, hero first, content sections in document order) -/

/-- Home archetype: hero, cabinet preview, target audience, final CTA
(`.footer-wrapper` is a sub-page landmark and is absent on the home page). -/
def homePage : Page :=
  { query := fun sel =>
      if sel = "#main-header" then some ⟨0, 80⟩
      else if sel = "#mega-menu" then some ⟨0, 0⟩
      else if sel = ".hero" then some ⟨0, 900⟩
      else if sel = ".cabinet-preview" then some ⟨900, 1800⟩
      else if sel = ".target-audience" then some ⟨1800, 2700⟩
      else if sel = ".final-cta" then some ⟨2700, 3300⟩
      else none,
    viewportH := 800,
    childCount := fun _ _ => 0 }

/-- Contact archetype: hero, contact section, FAQ. -/
def contactPage : Page :=
  { query := fun sel =>
      if sel = "#main-header" then some ⟨0, 80⟩
      else if sel = "#mega-menu" then some ⟨0, 0⟩
      else if sel = ".hero" then some ⟨0, 900⟩
      else if sel = ".section-contact" then some ⟨900, 1800⟩
      else if sel = ".section-faq" then some ⟨1800, 2600⟩
      else none,
    viewportH := 800,
    childCount := fun _ _ => 0 }

/-- Generic sub-page archetype: page hero, one content section, then the
footer wrapper containing the final CTA (the wrapper spans CTA + footer). -/
def subPage : Page :=
  { query := fun sel =>
      if sel = "#main-header" then some ⟨0, 80⟩
      else if sel = "#mega-menu" then some ⟨0, 0⟩
      else if sel = ".page-hero" then some ⟨0, 800⟩
      else if sel = ".section-content" then some ⟨800, 2000⟩
      else if sel = ".final-cta" then some ⟨2000, 2600⟩
      else if sel = ".footer-wrapper" then some ⟨2000, 3200⟩
      else none,
    viewportH := 800,
    childCount := fun _ _ => 0 }

/-- A document with no recognised markup at all (in particular no
`#main-header`). -/
def emptyPage : Page :=
  { query := fun _ => none, viewportH := 800, childCount := fun _ _ => 0 }

/-- A document with a hero and a header but none of the seven candidate
content sections. -/
def heroOnlyPage : Page :=
  { query := fun sel =>
      if sel = "#main-header" then some ⟨0, 80⟩
      else if sel = ".page-hero" then some ⟨0, 800⟩
      else none,
    viewportH := 800,
    childCount := fun _ _ => 0 }

/-- The world state of a freshly opened document whose header markup carries
no `data-theme` attribute yet. -/
def initialBlankState : St :=
  { scrollY := 0, headerTheme := none, megaTheme := none, triggers := [] }

/-- Modelled from the spec: the page markup (outside `src/`) renders the
header with a `data-theme` attribute already set, and the data model restricts
a Theme to one of the two values — so a freshly loaded page carries some
`Theme` on the header and the mega menu. -/
def markupLoadedState (y : Int) (t : Theme) : St :=
  { scrollY := y, headerTheme := some t, megaTheme := some t, triggers := [] }

/-! ## Round-trip scenarios (enter then leave-back) -/

/-- Round-trip check for one binding under the legacy entry point: initialise
at scroll 0, scroll to just above the binding's start boundary (the pre-enter
theme of the actual run), scroll forward past the boundary, scroll back above
it, and compare the theme with the pre-enter one.  Vacuously true for a
binding whose section is absent (it never fires). -/
def legacyRoundTrip (p : Page) (b : TriggerBinding) : Bool :=
  match p.query b.trigger with
  | none => true
  | some r =>
    let s := startPos p r b.start
    let st0 := Part000.initHeaderThemeLogic p initialBlankState
    let stPre := scrollTo p (s - 1) st0
    let stBack := scrollTo p (s - 1) (scrollTo p s stPre)
    decide (stBack.headerTheme = stPre.headerTheme)

/-- Same round trip under the headerTheme.js entry point, started from a page
whose markup carries the conventional dark hero baseline. -/
def jsRoundTrip (p : Page) (b : TriggerBinding) : Bool :=
  match p.query b.trigger with
  | none => true
  | some r =>
    let s := startPos p r b.start
    let st0 := HeaderThemeJs.initHeaderThemeLogic p (markupLoadedState 0 Theme.dark)
    let stPre := scrollTo p (s - 1) st0
    let stBack := scrollTo p (s - 1) (scrollTo p s stPre)
    decide (stBack.headerTheme = stPre.headerTheme)

/-- The theme left behind when the sub-page CTA binding's enter boundary
(top of `.final-cta` = 2000, minus the 100px margin) is crossed forward and
then back on the sub-page archetype under the legacy entry point. -/
def subpageCtaLeaveBackResult : Option Theme :=
  let st0 := Part000.initHeaderThemeLogic subPage initialBlankState
  let stPre := scrollTo subPage 1899 st0
  (scrollTo subPage 1899 (scrollTo subPage 1900 stPre)).headerTheme

/-- All creation-time theme writes of a list of triggers, in firing order. -/
def firedAll (p : Page) (y : Int) : List TriggerBinding → List Theme
  | [] => []
  | b :: bs => createFired p b y ++ firedAll p y bs

/-- The absolute tops of the present sections among a selector list. -/
def sectionTops (p : Page) (y : Int) (L : List String) : List Int :=
  L.filterMap (fun sel => (p.query sel).map (fun r => absoluteTop r y))

/-! ## The Installing step sequence (Lifecycle Coordinator) -/

/-- The five abstract actions of the legacy Installing phase. -/
inductive LifecycleStep where
  | killExisting
  | refreshAll
  | applyBaseline
  | createPlanBindings
  | deferredBaseline
deriving DecidableEq, Repr

/-- Interpreter for one Installing action of the legacy entry point
(`refreshAll` is the identity because geometry is always read live from
`Page` in this model). -/
def runLegacyStep (p : Page) (st : St) : LifecycleStep → St
  | .killExisting => killThemeTriggers st
  | .refreshAll => st
  | .applyBaseline => setTheme p (calculateInitialTheme p st.scrollY) st
  | .createPlanBindings => createAll p (Part000.planBindings p) st
  | .deferredBaseline => setTheme p (calculateInitialTheme p st.scrollY) st

/-- The order of the legacy Installing phase. -/
def legacyInstallSequence : List LifecycleStep :=
  [.killExisting, .refreshAll, .applyBaseline, .createPlanBindings,
   .deferredBaseline]

/-- A trigger of the shape the animations module creates (no id, no theme
callbacks), already present in the live list. -/
def entranceNoIdTrigger : TriggerBinding :=
  { id := none, trigger := ".section-content", start := .topPx 0,
    endS := .defaultEnd, refreshPriority := 0, onEnter := none,
    onLeave := none, onEnterBack := none, onLeaveBack := none }

/-- A state whose live list holds exactly one animations-module trigger. -/
def oneAnimTriggerState : St :=
  { scrollY := 0, headerTheme := none, megaTheme := none,
    triggers := [entranceNoIdTrigger] }

/-- Removing one section from a document: its selector stops matching. -/
def removeSection (s : String) (p : Page) : Page :=
  { p with query := fun sel => if sel = s then none else p.query sel }

/-- Erases the leave-back rule of every binding (the only difference C5
permits between the two plans). -/
def eraseLeaveBack (bs : List TriggerBinding) : List TriggerBinding :=
  bs.map (fun b => { b with onLeaveBack := none })

/-! ## Basic state lemmas -/

/-- The net effect of a sequence of theme writes on one attribute slot: the
last write wins, an empty sequence leaves the slot alone. -/
def lastWrite : List Theme → Option Theme → Option Theme
  | [], h => h
  | t :: ts, _ => lastWrite ts (some t)

theorem lastWrite_append (l1 l2 : List Theme) (h : Option Theme) :
    lastWrite (l1 ++ l2) h = lastWrite l2 (lastWrite l1 h) := by
  induction l1 generalizing h with
  | nil => rfl
  | cons t ts ih => simp [lastWrite, ih]

theorem lastWrite_lastWrite (l : List Theme) (h : Option Theme) :
    lastWrite l (lastWrite l h) = lastWrite l h := by
  cases l with
  | nil => rfl
  | cons t ts => rfl

theorem lastWrite_isSome (l : List Theme) (h : Option Theme) (hh : h.isSome) :
    (lastWrite l h).isSome := by
  induction l generalizing h with
  | nil => exact hh
  | cons t ts ih => exact ih (some t) rfl

theorem setTheme_scrollY (p : Page) (t : Theme) (st : St) :
    (setTheme p t st).scrollY = st.scrollY := rfl

theorem setTheme_triggers (p : Page) (t : Theme) (st : St) :
    (setTheme p t st).triggers = st.triggers := rfl

theorem setTheme_headerTheme (p : Page) (t : Theme) (st : St) :
    (setTheme p t st).headerTheme = some t := rfl

theorem setTheme_megaTheme (p : Page) (t : Theme) (st : St) :
    (setTheme p t st).megaTheme =
      if (p.query "#mega-menu").isSome then some t else st.megaTheme := rfl

theorem applyThemeList_scrollY (p : Page) (l : List Theme) (st : St) :
    (applyThemeList p l st).scrollY = st.scrollY := by
  induction l generalizing st with
  | nil => rfl
  | cons t ts ih => simpa [applyThemeList] using ih (setTheme p t st)

theorem applyThemeList_triggers (p : Page) (l : List Theme) (st : St) :
    (applyThemeList p l st).triggers = st.triggers := by
  induction l generalizing st with
  | nil => rfl
  | cons t ts ih => simpa [applyThemeList] using ih (setTheme p t st)

theorem applyThemeList_headerTheme (p : Page) (l : List Theme) (st : St) :
    (applyThemeList p l st).headerTheme = lastWrite l st.headerTheme := by
  induction l generalizing st with
  | nil => rfl
  | cons t ts ih =>
    simpa [applyThemeList, lastWrite] using ih (setTheme p t st)

theorem applyThemeList_megaTheme (p : Page) (l : List Theme) (st : St) :
    (applyThemeList p l st).megaTheme =
      if (p.query "#mega-menu").isSome then lastWrite l st.megaTheme
      else st.megaTheme := by
  induction l generalizing st with
  | nil => simp [applyThemeList, lastWrite]
  | cons t ts ih =>
    by_cases hm : (p.query "#mega-menu").isSome
    · simpa [applyThemeList, lastWrite, hm, setTheme] using ih (setTheme p t st)
    · simpa [applyThemeList, lastWrite, hm, setTheme] using ih (setTheme p t st)

theorem killThemeTriggers_scrollY (st : St) :
    (killThemeTriggers st).scrollY = st.scrollY := rfl

theorem killThemeTriggers_headerTheme (st : St) :
    (killThemeTriggers st).headerTheme = st.headerTheme := rfl

theorem killThemeTriggers_megaTheme (st : St) :
    (killThemeTriggers st).megaTheme = st.megaTheme := rfl

theorem killThemeTriggers_triggers (st : St) :
    (killThemeTriggers st).triggers =
      st.triggers.filter (fun b => !(isThemeId b.id)) := rfl

/-! ## Lemmas about `createAll` -/

theorem createBinding_scrollY (p : Page) (b : TriggerBinding) (st : St) :
    (createBinding p b st).scrollY = st.scrollY := by
  simp [createBinding, applyThemeList_scrollY]

theorem createBinding_triggers (p : Page) (b : TriggerBinding) (st : St) :
    (createBinding p b st).triggers = st.triggers ++ [b] := by
  simp [createBinding, applyThemeList_triggers]

theorem createBinding_headerTheme (p : Page) (b : TriggerBinding) (st : St) :
    (createBinding p b st).headerTheme =
      lastWrite (createFired p b st.scrollY) st.headerTheme := by
  simp [createBinding, applyThemeList_headerTheme]

theorem createBinding_megaTheme (p : Page) (b : TriggerBinding) (st : St) :
    (createBinding p b st).megaTheme =
      if (p.query "#mega-menu").isSome then
        lastWrite (createFired p b st.scrollY) st.megaTheme
      else st.megaTheme := by
  simp [createBinding, applyThemeList_megaTheme]

theorem createAll_scrollY (p : Page) (bs : List TriggerBinding) (st : St) :
    (createAll p bs st).scrollY = st.scrollY := by
  induction bs generalizing st with
  | nil => rfl
  | cons b bs ih =>
    simpa [createAll, createBinding_scrollY] using ih (createBinding p b st)

theorem createAll_triggers (p : Page) (bs : List TriggerBinding) (st : St) :
    (createAll p bs st).triggers = st.triggers ++ bs := by
  induction bs generalizing st with
  | nil => simp [createAll]
  | cons b bs ih =>
    have := ih (createBinding p b st)
    simp [createAll] at this ⊢
    simp [this, createBinding_triggers]

theorem createAll_headerTheme (p : Page) (bs : List TriggerBinding) (st : St) :
    (createAll p bs st).headerTheme =
      lastWrite (firedAll p st.scrollY bs) st.headerTheme := by
  induction bs generalizing st with
  | nil => rfl
  | cons b bs ih =>
    have := ih (createBinding p b st)
    simp [createAll] at this ⊢
    rw [this, createBinding_scrollY, createBinding_headerTheme, firedAll,
      lastWrite_append]

theorem createAll_megaTheme (p : Page) (bs : List TriggerBinding) (st : St) :
    (createAll p bs st).megaTheme =
      if (p.query "#mega-menu").isSome then
        lastWrite (firedAll p st.scrollY bs) st.megaTheme
      else st.megaTheme := by
  induction bs generalizing st with
  | nil => simp [createAll, firedAll, lastWrite]
  | cons b bs ih =>
    have := ih (createBinding p b st)
    by_cases hm : (p.query "#mega-menu").isSome
    · simp [createAll, hm] at this ⊢
      rw [this, createBinding_scrollY, createBinding_megaTheme, firedAll,
        lastWrite_append]
      simp [hm]
    · simp [createAll, hm] at this ⊢
      rw [this, createBinding_megaTheme]
      simp [hm]

/-! ## Normal forms of the two installation routines -/

theorem part000_initThemeTriggers_spec (p : Page) (st : St) :
    Part000.initThemeTriggers p st =
      { scrollY := st.scrollY,
        headerTheme := some (calculateInitialTheme p st.scrollY),
        megaTheme :=
          if (p.query "#mega-menu").isSome then
            some (calculateInitialTheme p st.scrollY)
          else st.megaTheme,
        triggers := st.triggers.filter (fun b => !(isThemeId b.id))
          ++ Part000.planBindings p } := by
  ext
  · simp [Part000.initThemeTriggers, setTheme_scrollY, createAll_scrollY,
      killThemeTriggers_scrollY]
  · simp [Part000.initThemeTriggers, setTheme_headerTheme, setTheme_scrollY,
      createAll_scrollY, killThemeTriggers_scrollY]
  · by_cases hm : (p.query "#mega-menu").isSome
    · simp [Part000.initThemeTriggers, setTheme_megaTheme, hm, setTheme_scrollY,
        createAll_scrollY, killThemeTriggers_scrollY]
    · simp [Part000.initThemeTriggers, setTheme_megaTheme, hm,
        createAll_megaTheme, killThemeTriggers_megaTheme]
  · simp [Part000.initThemeTriggers, setTheme_triggers, createAll_triggers,
      killThemeTriggers_triggers]

theorem headerThemeJs_initThemeTriggers_spec (p : Page) (st : St) :
    HeaderThemeJs.initThemeTriggers p st =
      { scrollY := st.scrollY,
        headerTheme :=
          lastWrite (firedAll p st.scrollY (HeaderThemeJs.planBindings p))
            st.headerTheme,
        megaTheme :=
          if (p.query "#mega-menu").isSome then
            lastWrite (firedAll p st.scrollY (HeaderThemeJs.planBindings p))
              st.megaTheme
          else st.megaTheme,
        triggers := st.triggers.filter (fun b => !(isThemeId b.id))
          ++ HeaderThemeJs.planBindings p } := by
  ext
  · simp [HeaderThemeJs.initThemeTriggers, createAll_scrollY,
      killThemeTriggers_scrollY]
  · simp [HeaderThemeJs.initThemeTriggers, createAll_headerTheme,
      killThemeTriggers_headerTheme, killThemeTriggers_scrollY]
  · by_cases hm : (p.query "#mega-menu").isSome
    · simp [HeaderThemeJs.initThemeTriggers, createAll_megaTheme, hm,
        killThemeTriggers_megaTheme, killThemeTriggers_scrollY]
    · simp [HeaderThemeJs.initThemeTriggers, createAll_megaTheme, hm,
        killThemeTriggers_megaTheme]
  · simp [HeaderThemeJs.initThemeTriggers, createAll_triggers,
      killThemeTriggers_triggers]

/-! ## Plan membership lemmas -/

theorem subPageLightSections_enum :
    subPageLightSections.enum =
      [(0, ".section-presentation"), (1, ".section-domaines"),
       (2, ".section-articles"), (3, ".section-content"),
       (4, ".section-philosophy")] := by decide

theorem subPageLights_cases (p : Page) (b : TriggerBinding)
    (hb : b ∈ subPageLights p) :
    b = subPageLightBinding 0 ".section-presentation" ∨
    b = subPageLightBinding 1 ".section-domaines" ∨
    b = subPageLightBinding 2 ".section-articles" ∨
    b = subPageLightBinding 3 ".section-content" ∨
    b = subPageLightBinding 4 ".section-philosophy" := by
  rw [subPageLights, subPageLightSections_enum] at hb
  rw [List.mem_filterMap] at hb
  obtain ⟨pr, hpr, hfb⟩ := hb
  simp only [List.mem_cons, List.not_mem_nil, or_false] at hpr
  rcases hpr with h | h | h | h | h <;> subst h <;> split at hfb <;>
    first
      | (simp only [Option.some.injEq] at hfb; subst hfb; decide)
      | (exact absurd hfb (by simp))

theorem planBindings_isThemeId (p : Page) (b : TriggerBinding)
    (hb : b ∈ Part000.planBindings p ∨ b ∈ HeaderThemeJs.planBindings p) :
    isThemeId b.id = true := by
  rcases hb with hb | hb
  · rw [Part000.planBindings] at hb
    rcases List.mem_append.mp hb with hb | hb
    · rcases List.mem_append.mp hb with hb | hb
      · fin_cases hb <;> decide
      · rcases subPageLights_cases p b hb with h | h | h | h | h <;>
          subst h <;> decide
    · split at hb
      · split at hb
        · rcases List.mem_singleton.mp hb with rfl
          decide
        · exact absurd hb (by simp)
      · exact absurd hb (by simp)
  · rw [HeaderThemeJs.planBindings] at hb
    rcases List.mem_append.mp hb with hb | hb
    · rcases List.mem_append.mp hb with hb | hb
      · fin_cases hb <;> decide
      · rcases subPageLights_cases p b hb with h | h | h | h | h <;>
          subst h <;> decide
    · split at hb
      · rcases List.mem_singleton.mp hb with rfl
        decide
      · exact absurd hb (by simp)

/-! ## The `firstContentTop` minimisation -/

theorem presentContentTops_eq (p : Page) (y : Int) :
    presentContentTops p y = sectionTops p y contentSections := rfl

theorem minFold_some (p : Page) (y : Int) (L : List String) (a : Int) :
    ∃ b, L.foldl (minTopStep p y) (some a) = some b ∧ b ≤ a ∧
      (b = a ∨ b ∈ sectionTops p y L) ∧ ∀ x ∈ sectionTops p y L, b ≤ x := by
  induction L generalizing a with
  | nil => exact ⟨a, rfl, le_refl a, Or.inl rfl, by simp [sectionTops]⟩
  | cons sel L ih =>
    cases hq : p.query sel with
    | none =>
      obtain ⟨b, heq, hba, hmem, hall⟩ := ih a
      refine ⟨b, ?_, hba, ?_, ?_⟩
      · simpa [List.foldl_cons, minTopStep, hq] using heq
      · simpa [sectionTops, List.filterMap_cons, hq] using hmem
      · simpa [sectionTops, List.filterMap_cons, hq] using hall
    | some r =>
      have htops : sectionTops p y (sel :: L) =
          absoluteTop r y :: sectionTops p y L := by
        simp [sectionTops, List.filterMap_cons, hq]
      by_cases ht : absoluteTop r y < a
      · obtain ⟨b, heq, hba, hmem, hall⟩ := ih (absoluteTop r y)
        refine ⟨b, ?_, le_trans hba (le_of_lt ht), ?_, ?_⟩
        · simpa [List.foldl_cons, minTopStep, hq, ht] using heq
        · rw [htops]
          rcases hmem with h | h
          · exact Or.inr (h ▸ List.mem_cons_self _ _)
          · exact Or.inr (List.mem_cons_of_mem _ h)
        · rw [htops]
          intro x hx
          rcases List.mem_cons.mp hx with h | h
          · exact h ▸ hba
          · exact hall x h
      · obtain ⟨b, heq, hba, hmem, hall⟩ := ih a
        refine ⟨b, ?_, hba, ?_, ?_⟩
        · simpa [List.foldl_cons, minTopStep, hq, ht] using heq
        · rw [htops]
          rcases hmem with h | h
          · exact Or.inl h
          · exact Or.inr (List.mem_cons_of_mem _ h)
        · rw [htops]
          intro x hx
          rcases List.mem_cons.mp hx with h | h
          · exact h ▸ le_trans hba (le_of_not_lt ht)
          · exact hall x h

theorem minFold_none (p : Page) (y : Int) (L : List String)
    (hne : sectionTops p y L ≠ []) :
    ∃ b, L.foldl (minTopStep p y) none = some b ∧ b ∈ sectionTops p y L ∧
      ∀ x ∈ sectionTops p y L, b ≤ x := by
  induction L with
  | nil => exact absurd rfl hne
  | cons sel L ih =>
    cases hq : p.query sel with
    | none =>
      have htops : sectionTops p y (sel :: L) = sectionTops p y L := by
        simp [sectionTops, List.filterMap_cons, hq]
      rw [htops] at hne
      obtain ⟨b, heq, hmem, hall⟩ := ih hne
      refine ⟨b, ?_, ?_, ?_⟩
      · simpa [List.foldl_cons, minTopStep, hq] using heq
      · rw [htops]; exact hmem
      · rw [htops]; exact hall
    | some r =>
      have htops : sectionTops p y (sel :: L) =
          absoluteTop r y :: sectionTops p y L := by
        simp [sectionTops, List.filterMap_cons, hq]
      obtain ⟨b, heq, hba, hmem, hall⟩ := minFold_some p y L (absoluteTop r y)
      refine ⟨b, ?_, ?_, ?_⟩
      · simpa [List.foldl_cons, minTopStep, hq] using heq
      · rw [htops]
        rcases hmem with h | h
        · exact h ▸ List.mem_cons_self _ _
        · exact List.mem_cons_of_mem _ h
      · rw [htops]
        intro x hx
        rcases List.mem_cons.mp hx with h | h
        · exact h ▸ hba
        · exact hall x h

/-- `firstContentTop` computes exactly the minimum of the present candidate
sections' absolute tops. -/
theorem firstContentTop_eq_min (p : Page) (y m : Int)
    (hmem : m ∈ presentContentTops p y)
    (hmin : ∀ x ∈ presentContentTops p y, m ≤ x) :
    firstContentTop p y = some m := by
  rw [presentContentTops_eq] at hmem hmin
  have hne : sectionTops p y contentSections ≠ [] := by
    intro h
    rw [h] at hmem
    exact List.not_mem_nil m hmem
  obtain ⟨b, heq, hbmem, hall⟩ := minFold_none p y contentSections hne
  have : b = m := le_antisymm (hall m hmem) (hmin b hbmem)
  rw [firstContentTop, heq, this]

/-! ## The exactly-one-theme invariant under scrolling -/

theorem applyRule_headerTheme_isSome (p : Page) (rule : Option Theme) (st : St)
    (h : st.headerTheme.isSome) : (applyRule p rule st).headerTheme.isSome := by
  cases rule with
  | none => exact h
  | some t => rfl

theorem fireOne_headerTheme_isSome (p : Page) (b : TriggerBinding)
    (oldY newY : Int) (st : St) (h : st.headerTheme.isSome) :
    (fireOne p b oldY newY st).headerTheme.isSome := by
  rw [fireOne]
  cases p.query b.trigger with
  | none => exact h
  | some r =>
    dsimp only
    split_ifs <;>
      first
        | exact h
        | exact applyRule_headerTheme_isSome _ _ _ h
        | exact applyRule_headerTheme_isSome _ _ _
            (applyRule_headerTheme_isSome _ _ _ h)

theorem scrollTo_headerTheme_isSome (p : Page) (newY : Int) (st : St)
    (h : st.headerTheme.isSome) : (scrollTo p newY st).headerTheme.isSome := by
  rw [scrollTo]
  dsimp only
  have : ∀ (bs : List TriggerBinding) (acc : St), acc.headerTheme.isSome →
      (bs.foldl (fun acc b => fireOne p b st.scrollY newY acc) acc).headerTheme.isSome := by
    intro bs
    induction bs with
    | nil => intro acc hacc; exact hacc
    | cons b bs ih =>
      intro acc hacc
      exact ih _ (fireOne_headerTheme_isSome p b _ _ acc hacc)
  exact this st.triggers st h

theorem runScrolls_headerTheme_isSome (p : Page) (moves : List Int) (st : St)
    (h : st.headerTheme.isSome) :
    (runScrolls p moves st).headerTheme.isSome := by
  induction moves generalizing st with
  | nil => exact h
  | cons y ys ih =>
    exact ih (scrollTo p y st) (scrollTo_headerTheme_isSome p y st h)

/-- An optional theme that is set carries exactly one of the two values. -/
theorem themeOption_cases (o : Option Theme) (h : o.isSome) :
    o = some Theme.light ∨ o = some Theme.dark := by
  cases o with
  | none => exact absurd h (by simp)
  | some t =>
    cases t with
    | light => exact Or.inl rfl
    | dark => exact Or.inr rfl

/-! ## Claims -/

/-- C1: with a hero-type section present and at least one candidate content
section present (of minimum absolute top `m`), `calculateInitialTheme`
returns dark exactly when the scroll offset is strictly below `m - 100`
(the 100px header margin), and light otherwise; with no hero-type section it
always returns light. -/
theorem claim_c1_initial_theme (p : Page) (y m : Int)
    (hmem : m ∈ presentContentTops p y)
    (hmin : ∀ x ∈ presentContentTops p y, m ≤ x) :
    (hasHero p = true →
      (calculateInitialTheme p y = Theme.dark ↔ y < m - 100)) ∧
    (hasHero p = false → calculateInitialTheme p y = Theme.light) := by
  have hfct := firstContentTop_eq_min p y m hmem hmin
  constructor
  · intro hh
    by_cases hy : y < m - 100
    · simp [calculateInitialTheme, scrollBeforeContent, hfct, hh, hy]
    · simp [calculateInitialTheme, scrollBeforeContent, hfct, hh, hy]
  · intro hh
    simp [calculateInitialTheme, hh]

/-- Witness for C1 on the sub-page archetype: the one candidate present is
`.section-content` with top 800, so the threshold is scroll offset 700. -/
theorem claim_c1_initial_theme_witness :
    (hasHero subPage = true →
      (calculateInitialTheme subPage 0 = Theme.dark ↔ (0 : Int) < 800 - 100)) ∧
    (hasHero subPage = false → calculateInitialTheme subPage 0 = Theme.light) :=
  claim_c1_initial_theme subPage 0 800 (by decide) (by decide)

/-- C10: with a hero-type section present and none of the seven candidate
content sections present, the minimum stays `Infinity` and
`calculateInitialTheme` returns dark at every scroll offset. -/
theorem claim_c10_hero_only_dark (p : Page) (y : Int) (hh : hasHero p = true)
    (habs : ∀ sel ∈ contentSections, p.query sel = none) :
    calculateInitialTheme p y = Theme.dark := by
  have hfct : firstContentTop p y = none := by
    rw [firstContentTop]
    have step : ∀ (L : List String) (acc : Option Int),
        (∀ sel ∈ L, p.query sel = none) →
        L.foldl (minTopStep p y) acc = acc := by
      intro L
      induction L with
      | nil => intro acc _; rfl
      | cons sel L ih =>
        intro acc hL
        rw [List.foldl_cons]
        have h1 := hL sel (List.mem_cons_self _ _)
        have h2 : minTopStep p y acc sel = acc := by
          simp only [minTopStep, h1]
        rw [h2]
        exact ih acc fun s hs => hL s (List.mem_cons_of_mem _ hs)
    exact step contentSections none habs
  simp [calculateInitialTheme, scrollBeforeContent, hfct, hh]

/-- Witness for C10: a page with only a header and a page hero, scrolled
far down, still resolves dark. -/
theorem claim_c10_hero_only_dark_witness :
    calculateInitialTheme heroOnlyPage 55555 = Theme.dark :=
  claim_c10_hero_only_dark heroOnlyPage 55555 (by decide) (by decide)

/-- C9: when `#main-header` is not found, both entry points leave the world
state exactly as it was — no theme write, no trigger created or destroyed
(the embedding is total, so no exception can occur). -/
theorem claim_c9_missing_header (p : Page) (st : St)
    (h : p.query "#main-header" = none) :
    Part000.initHeaderThemeLogic p st = st ∧
    HeaderThemeJs.initHeaderThemeLogic p st = st := by
  constructor
  · simp [Part000.initHeaderThemeLogic, h]
  · simp [HeaderThemeJs.initHeaderThemeLogic, h]

/-- Witness for C9 on a document with no recognised markup. -/
theorem claim_c9_missing_header_witness :
    Part000.initHeaderThemeLogic emptyPage initialBlankState = initialBlankState ∧
    HeaderThemeJs.initHeaderThemeLogic emptyPage initialBlankState = initialBlankState :=
  claim_c9_missing_header emptyPage initialBlankState rfl

/-- C4: the legacy `initThemeTriggers` is exactly the run of kill → refresh →
baseline → create → deferred-baseline in that order, and because the deferred
re-baseline runs last — after every synchronous creation-time enter
callback — the header always ends up carrying the
`calculateInitialTheme` baseline. -/
theorem claim_c4_install_order (p : Page) (st : St) :
    Part000.initThemeTriggers p st =
      legacyInstallSequence.foldl (runLegacyStep p) st ∧
    (Part000.initThemeTriggers p st).headerTheme =
      some (calculateInitialTheme p st.scrollY) := by
  constructor
  · rfl
  · rw [part000_initThemeTriggers_spec]

/-! ## Idempotent reinstallation -/

theorem filter_nonTheme_idem (l : List TriggerBinding) :
    (l.filter (fun b => !(isThemeId b.id))).filter (fun b => !(isThemeId b.id)) =
      l.filter (fun b => !(isThemeId b.id)) := by
  rw [List.filter_filter]
  simp [Bool.and_self]

theorem filter_nonTheme_plan_part000 (p : Page) :
    (Part000.planBindings p).filter (fun b => !(isThemeId b.id)) = [] := by
  rw [List.filter_eq_nil_iff]
  intro b hb
  simp [planBindings_isThemeId p b (Or.inl hb)]

theorem filter_nonTheme_plan_js (p : Page) :
    (HeaderThemeJs.planBindings p).filter (fun b => !(isThemeId b.id)) = [] := by
  rw [List.filter_eq_nil_iff]
  intro b hb
  simp [planBindings_isThemeId p b (Or.inr hb)]

theorem filter_isTheme_of_filtered (l : List TriggerBinding) :
    (l.filter (fun b => !(isThemeId b.id))).filter (fun b => isThemeId b.id) = [] := by
  rw [List.filter_eq_nil_iff]
  intro b hb
  rcases List.mem_filter.mp hb with ⟨_, hpred⟩
  simp at hpred
  simp [hpred]

theorem part000_initThemeTriggers_idem (p : Page) (st : St) :
    Part000.initThemeTriggers p (Part000.initThemeTriggers p st) =
      Part000.initThemeTriggers p st := by
  rw [part000_initThemeTriggers_spec, part000_initThemeTriggers_spec]
  refine St.ext ?_ ?_ ?_ ?_
  · rfl
  · rfl
  · by_cases hm : (p.query "#mega-menu").isSome
    · simp [hm]
    · simp [hm]
  · show List.filter _ (List.filter _ st.triggers ++ Part000.planBindings p)
        ++ Part000.planBindings p = _
    rw [List.filter_append, filter_nonTheme_idem, filter_nonTheme_plan_part000,
      List.append_nil]

theorem headerThemeJs_initThemeTriggers_idem (p : Page) (st : St) :
    HeaderThemeJs.initThemeTriggers p (HeaderThemeJs.initThemeTriggers p st) =
      HeaderThemeJs.initThemeTriggers p st := by
  rw [headerThemeJs_initThemeTriggers_spec, headerThemeJs_initThemeTriggers_spec]
  refine St.ext ?_ ?_ ?_ ?_
  · rfl
  · show lastWrite _ (lastWrite _ st.headerTheme) = _
    rw [lastWrite_lastWrite]
  · by_cases hm : (p.query "#mega-menu").isSome
    · simp only [hm, if_true]
      show lastWrite _ (lastWrite _ st.megaTheme) = _
      rw [lastWrite_lastWrite]
    · simp [hm]
  · show List.filter _ (List.filter _ st.triggers ++ HeaderThemeJs.planBindings p)
        ++ HeaderThemeJs.planBindings p = _
    rw [List.filter_append, filter_nonTheme_idem, filter_nonTheme_plan_js,
      List.append_nil]

/-- C6: calling a trigger-installation routine twice (through either entry
point) gives exactly the same final state as calling it once, and after one
call the `theme-` triggers in the live list are exactly one copy of the
page's plan (nothing duplicated). -/
theorem claim_c6_idempotent (p : Page) (st : St) :
    Part000.initHeaderThemeLogic p (Part000.initHeaderThemeLogic p st) =
      Part000.initHeaderThemeLogic p st ∧
    HeaderThemeJs.initHeaderThemeLogic p (HeaderThemeJs.initHeaderThemeLogic p st) =
      HeaderThemeJs.initHeaderThemeLogic p st ∧
    (Part000.initThemeTriggers p st).triggers.filter (fun b => isThemeId b.id) =
      Part000.planBindings p ∧
    (HeaderThemeJs.initThemeTriggers p st).triggers.filter
        (fun b => isThemeId b.id) =
      HeaderThemeJs.planBindings p := by
  refine ⟨?_, ?_, ?_, ?_⟩
  · by_cases hh : (p.query "#main-header").isSome
    · simp [Part000.initHeaderThemeLogic, hh, part000_initThemeTriggers_idem]
    · simp [Part000.initHeaderThemeLogic, hh]
  · by_cases hh : (p.query "#main-header").isSome
    · simp [HeaderThemeJs.initHeaderThemeLogic, hh,
        headerThemeJs_initThemeTriggers_idem]
    · simp [HeaderThemeJs.initHeaderThemeLogic, hh]
  · rw [part000_initThemeTriggers_spec]
    simp only
    rw [List.filter_append, filter_isTheme_of_filtered, List.nil_append,
      List.filter_eq_self.mpr]
    intro b hb
    exact planBindings_isThemeId p b (Or.inl hb)
  · rw [headerThemeJs_initThemeTriggers_spec]
    simp only
    rw [List.filter_append, filter_isTheme_of_filtered, List.nil_append,
      List.filter_eq_self.mpr]
    intro b hb
    exact planBindings_isThemeId p b (Or.inr hb)

/-- C2: after initialization completes, the header carries exactly one of the
two Theme values at every subsequent scroll offset: unconditionally for the
legacy entry point (it always applies the baseline), and for the stripped
entry point whenever the header markup carried some theme to begin with
(`markupLoadedState`); no `none`/undefined state is ever observable. -/
theorem claim_c2_exactly_one_theme (p : Page) (st : St) (moves : List Int)
    (t0 : Theme) (hheader : (p.query "#main-header").isSome) :
    ((runScrolls p moves (Part000.initHeaderThemeLogic p st)).headerTheme =
        some Theme.light ∨
      (runScrolls p moves (Part000.initHeaderThemeLogic p st)).headerTheme =
        some Theme.dark) ∧
    (st.headerTheme = some t0 →
      ((runScrolls p moves (HeaderThemeJs.initHeaderThemeLogic p st)).headerTheme =
          some Theme.light ∨
        (runScrolls p moves (HeaderThemeJs.initHeaderThemeLogic p st)).headerTheme =
          some Theme.dark)) := by
  constructor
  · apply themeOption_cases
    apply runScrolls_headerTheme_isSome
    rw [Part000.initHeaderThemeLogic, if_pos hheader,
      part000_initThemeTriggers_spec]
    rfl
  · intro h0
    apply themeOption_cases
    apply runScrolls_headerTheme_isSome
    rw [HeaderThemeJs.initHeaderThemeLogic, if_pos hheader,
      headerThemeJs_initThemeTriggers_spec]
    show (lastWrite _ st.headerTheme).isSome
    exact lastWrite_isSome _ _ (by rw [h0]; rfl)

/-- Witness for C2 on the sub-page archetype, scrolling into the content and
back up. -/
theorem claim_c2_exactly_one_theme_witness :
    ((runScrolls subPage [1000, 0]
        (Part000.initHeaderThemeLogic subPage (markupLoadedState 0 Theme.dark))).headerTheme =
          some Theme.light ∨
      (runScrolls subPage [1000, 0]
        (Part000.initHeaderThemeLogic subPage (markupLoadedState 0 Theme.dark))).headerTheme =
          some Theme.dark) ∧
    ((runScrolls subPage [1000, 0]
        (HeaderThemeJs.initHeaderThemeLogic subPage (markupLoadedState 0 Theme.dark))).headerTheme =
          some Theme.light ∨
      (runScrolls subPage [1000, 0]
        (HeaderThemeJs.initHeaderThemeLogic subPage (markupLoadedState 0 Theme.dark))).headerTheme =
          some Theme.dark) := by
  have h := claim_c2_exactly_one_theme subPage (markupLoadedState 0 Theme.dark)
    [1000, 0] Theme.dark (by decide)
  exact ⟨h.1, h.2 rfl⟩

/-- C7: teardown removes exactly the `theme-`-namespaced triggers: every
trigger either installation routine creates carries such an id, the kill loop
keeps precisely the triggers whose id check fails (the optional-chaining check
is total, so an id-less trigger causes no error), and every trigger the
animations module's `initSectionEntrance` adds is id-less and therefore
survives teardown. -/
theorem claim_c7_namespaced_teardown (p : Page) (st : St) (b : TriggerBinding) :
    ((b ∈ Part000.planBindings p ∨ b ∈ HeaderThemeJs.planBindings p) →
      ∃ s, b.id = some s ∧ isThemeId (some s) = true) ∧
    (b ∈ (killThemeTriggers st).triggers ↔
      b ∈ st.triggers ∧ isThemeId b.id = false) ∧
    (∀ sectionSel childSel start,
      ∀ c ∈ (initSectionEntrance p sectionSel childSel start st).triggers,
        c ∈ st.triggers ∨ (c.id = none ∧ isThemeId c.id = false)) := by
  refine ⟨?_, ?_, ?_⟩
  · intro hb
    have hid := planBindings_isThemeId p b hb
    cases hs : b.id with
    | none => rw [hs] at hid; exact absurd hid (by simp [isThemeId])
    | some s => exact ⟨s, rfl, hs ▸ hid⟩
  · rw [killThemeTriggers]
    constructor
    · intro h
      rcases List.mem_filter.mp h with ⟨hmem, hpred⟩
      simp at hpred
      exact ⟨hmem, hpred⟩
    · intro ⟨hmem, hpred⟩
      exact List.mem_filter.mpr ⟨hmem, by simp [hpred]⟩
  · intro sectionSel childSel start c hc
    rw [initSectionEntrance] at hc
    cases hq : p.query sectionSel with
    | none => rw [hq] at hc; exact Or.inl hc
    | some r =>
      rw [hq] at hc
      dsimp only at hc
      by_cases hn : p.childCount sectionSel childSel = 0
      · rw [if_pos hn] at hc
        exact Or.inl hc
      · rw [if_neg hn] at hc
        simp only at hc
        rcases List.mem_append.mp hc with h | h
        · exact Or.inl h
        · rcases List.mem_singleton.mp h with rfl
          exact Or.inr ⟨rfl, rfl⟩

/-- Witness for C7: the home binding `theme-cabinet` is namespaced, and an
id-less animations trigger in the live list survives the kill. -/
theorem claim_c7_namespaced_teardown_witness :
    (∃ s, themeCabinet.id = some s ∧ isThemeId (some s) = true) ∧
    entranceNoIdTrigger ∈ (killThemeTriggers oneAnimTriggerState).triggers := by
  constructor
  · exact (claim_c7_namespaced_teardown homePage initialBlankState
      themeCabinet).1 (Or.inl (by decide))
  · exact ((claim_c7_namespaced_teardown homePage oneAnimTriggerState
      entranceNoIdTrigger).2.1).mpr (by decide)

/-- Counterexample to C8 as stated: on the sub-page archetype the legacy plan
contains the `theme-subpage-cta` binding for the (present) `.final-cta`
section, but removing the *different* `.footer-wrapper` section suppresses
that binding. -/
theorem claim_c8_counterexample :
    themeSubpageCta ∈ Part000.planBindings subPage ∧
    themeSubpageCta.trigger ≠ ".footer-wrapper" ∧
    themeSubpageCta ∉
      Part000.planBindings (removeSection ".footer-wrapper" subPage) := by
  refine ⟨by decide, by decide, ?_⟩
  decide

/-- C8 (amended): initialization is total (never throws), and removing one
section never suppresses a binding whose trigger is a different section —
with the single exception of the legacy `theme-subpage-cta` binding, which is
also suppressed when the removed section is `.footer-wrapper`; the
headerTheme.js plan has no exception at all. -/
theorem claim_c8_absent_section (p : Page) (s : String) (b : TriggerBinding) :
    (b ∈ Part000.planBindings p → b.trigger ≠ s →
      (b.id = some "theme-subpage-cta" → s ≠ ".footer-wrapper") →
      b ∈ Part000.planBindings (removeSection s p)) ∧
    (b ∈ HeaderThemeJs.planBindings p → b.trigger ≠ s →
      b ∈ HeaderThemeJs.planBindings (removeSection s p)) := by
  have hquery : ∀ sel, sel ≠ s → (removeSection s p).query sel = p.query sel := by
    intro sel hsel
    simp [removeSection, hsel]
  have hlights : ∀ c ∈ subPageLights p, c.trigger ≠ s →
      c ∈ subPageLights (removeSection s p) := by
    intro c hc htr
    rw [subPageLights, List.mem_filterMap] at hc ⊢
    obtain ⟨pr, hpr, hfc⟩ := hc
    refine ⟨pr, hpr, ?_⟩
    split at hfc
    · simp only [Option.some.injEq] at hfc
      have hsel : pr.2 ≠ s := by
        intro h
        refine htr ?_
        rw [← hfc]
        exact h
      rw [hquery pr.2 hsel]
      simp [*]
    · exact absurd hfc (by simp)
  constructor
  · intro hb htr hcta
    rw [Part000.planBindings] at hb ⊢
    rcases List.mem_append.mp hb with hb | hb
    · rcases List.mem_append.mp hb with hb | hb
      · exact List.mem_append_left _ (List.mem_append_left _ hb)
      · exact List.mem_append_left _
          (List.mem_append_right _ (hlights b hb htr))
    · split at hb
      · split at hb
        · rcases List.mem_singleton.mp hb with rfl
          have hfw : (".footer-wrapper" : String) ≠ s :=
            fun h => hcta rfl h.symm
          have hcta2 : (".final-cta" : String) ≠ s := htr
          apply List.mem_append_right
          rw [hquery _ hfw, hquery _ hcta2]
          simp [*]
        · exact absurd hb (by simp)
      · exact absurd hb (by simp)
  · intro hb htr
    rw [HeaderThemeJs.planBindings] at hb ⊢
    rcases List.mem_append.mp hb with hb | hb
    · rcases List.mem_append.mp hb with hb | hb
      · exact List.mem_append_left _ (List.mem_append_left _ hb)
      · exact List.mem_append_left _
          (List.mem_append_right _ (hlights b hb htr))
    · split at hb
      · rcases List.mem_singleton.mp hb with rfl
        have hfw : (".footer-wrapper" : String) ≠ s := htr
        apply List.mem_append_right
        rw [hquery _ hfw]
        simp [*]
      · exact absurd hb (by simp)

/-- Witness for C8 (amended): removing `.section-presentation` keeps the
`.section-content` light binding of the legacy plan and the footer binding of
the headerTheme.js plan. -/
theorem claim_c8_absent_section_witness :
    subPageLightBinding 3 ".section-content" ∈
      Part000.planBindings (removeSection ".section-presentation" subPage) ∧
    themeSubpageFooter ∈
      HeaderThemeJs.planBindings (removeSection ".section-presentation" subPage) := by
  constructor
  · refine (claim_c8_absent_section subPage ".section-presentation"
      (subPageLightBinding 3 ".section-content")).1 (by decide) (by decide) ?_
    intro h
    exact absurd h (by decide)
  · exact (claim_c8_absent_section subPage ".section-presentation"
      themeSubpageFooter).2 (by decide) (by decide)

/-- Counterexample to C5 as stated: on the sub-page archetype the two entry
points' plans differ in more than a leave-back rule — the legacy footer-area
binding targets `.final-cta` (enter light, with an end boundary) while the
headerTheme.js one targets `.footer-wrapper` itself (enter dark, no end
boundary), under a different id and guard. -/
theorem claim_c5_counterexample :
    eraseLeaveBack (Part000.planBindings subPage) ≠
      eraseLeaveBack (HeaderThemeJs.planBindings subPage) := by
  decide

/-- C5 (amended): away from the footer area the two plans agree exactly
(dropping the one footer-area binding on each side gives equal lists); the
remaining difference is structural, not just a leave-back rule: the legacy
side contributes `theme-subpage-cta` on `.final-cta` (guarded by both
`.footer-wrapper` and `.final-cta`), the headerTheme.js side
`theme-subpage-footer` on `.footer-wrapper` (guarded by `.footer-wrapper`
alone), and only the legacy routine applies the `calculateInitialTheme`
baseline (immediately and deferred). -/
theorem claim_c5_entry_points_diff (p : Page) (st : St) :
    (Part000.planBindings p).filter
        (fun b => !(decide (b.id = some "theme-subpage-cta"))) =
      (HeaderThemeJs.planBindings p).filter
        (fun b => !(decide (b.id = some "theme-subpage-footer"))) ∧
    ((p.query ".footer-wrapper").isSome → (p.query ".final-cta").isSome →
      themeSubpageCta ∈ Part000.planBindings p) ∧
    ((p.query ".footer-wrapper").isSome →
      themeSubpageFooter ∈ HeaderThemeJs.planBindings p) ∧
    (Part000.initThemeTriggers p st).headerTheme =
      some (calculateInitialTheme p st.scrollY) := by
  refine ⟨?_, ?_, ?_, ?_⟩
  · rw [Part000.planBindings, HeaderThemeJs.planBindings]
    rw [List.filter_append, List.filter_append, List.filter_append,
      List.filter_append]
    have hfixed :
        [themeCabinet, themeAudience, themeCta, themeContactSection,
          themeFaqSection].filter
            (fun b => !(decide (b.id = some "theme-subpage-cta"))) =
        [themeCabinet, themeAudience, themeCta, themeContactSection,
          themeFaqSection].filter
            (fun b => !(decide (b.id = some "theme-subpage-footer"))) := by
      decide
    have hlights1 : (subPageLights p).filter
        (fun b => !(decide (b.id = some "theme-subpage-cta"))) =
        subPageLights p := by
      rw [List.filter_eq_self]
      intro b hb
      rcases subPageLights_cases p b hb with h | h | h | h | h <;>
        · rw [h]; decide
    have hlights2 : (subPageLights p).filter
        (fun b => !(decide (b.id = some "theme-subpage-footer"))) =
        subPageLights p := by
      rw [List.filter_eq_self]
      intro b hb
      rcases subPageLights_cases p b hb with h | h | h | h | h <;>
        · rw [h]; decide
    have htail1 : (if (p.query ".footer-wrapper").isSome then
          (if (p.query ".final-cta").isSome then [themeSubpageCta] else [])
        else []).filter
          (fun b => !(decide (b.id = some "theme-subpage-cta"))) = [] := by
      split
      · split
        · decide
        · rfl
      · rfl
    have htail2 : (if (p.query ".footer-wrapper").isSome then
          [themeSubpageFooter] else []).filter
          (fun b => !(decide (b.id = some "theme-subpage-footer"))) = [] := by
      split
      · decide
      · rfl
    rw [hfixed, hlights1, hlights2, htail1, htail2]
  · intro h1 h2
    rw [Part000.planBindings]
    apply List.mem_append_right
    rw [if_pos h1, if_pos h2]
    exact List.mem_singleton.mpr rfl
  · intro h1
    rw [HeaderThemeJs.planBindings]
    apply List.mem_append_right
    rw [if_pos h1]
    exact List.mem_singleton.mpr rfl
  · rw [part000_initThemeTriggers_spec]

/-- Witness for C5 (amended) on the sub-page archetype. -/
theorem claim_c5_entry_points_diff_witness :
    themeSubpageCta ∈ Part000.planBindings subPage ∧
    themeSubpageFooter ∈ HeaderThemeJs.planBindings subPage := by
  have h := claim_c5_entry_points_diff subPage initialBlankState
  exact ⟨h.2.1 (by decide) (by decide), h.2.2.1 (by decide)⟩

/-- C3: on each archetype document, for every created binding whose section
is present, scrolling (in the run started at offset 0 after initialization)
forward past the binding's enter boundary and then back above it restores the
theme that held just before entering — under both entry points — and the
sub-page `theme-subpage-cta` binding's leave-back leaves the theme light. -/
theorem claim_c3_round_trip :
    (Part000.planBindings homePage).all (legacyRoundTrip homePage) = true ∧
    (Part000.planBindings contactPage).all (legacyRoundTrip contactPage) = true ∧
    (Part000.planBindings subPage).all (legacyRoundTrip subPage) = true ∧
    (HeaderThemeJs.planBindings homePage).all (jsRoundTrip homePage) = true ∧
    (HeaderThemeJs.planBindings contactPage).all (jsRoundTrip contactPage) = true ∧
    (HeaderThemeJs.planBindings subPage).all (jsRoundTrip subPage) = true ∧
    subpageCtaLeaveBackResult = some Theme.light := by
  refine ⟨?_, ?_, ?_, ?_, ?_, ?_, ?_⟩ <;> decide
